/-
Verification of the communication-coach scoring and state logic
(skills/rjmoggach/communication-coach/scripts/analyze_comm.py and manage_state.py).

Texts are modelled as `List Char`.  Python's `str.lower` is modelled by
`Char.toLower` (faithful for the ASCII texts the tool handles), `str.count`
by a non-overlapping left-to-right substring scan, `str.split`/`str.strip`
by whitespace splitting/trimming, and the handful of fixed regular
expressions by direct scanners that reproduce `re.findall`/`re.search`
semantics for those patterns (left-to-right scan, non-overlapping matches,
ordered alternation, `\b` word boundaries, IGNORECASE via lowercasing).
Python floats that only ever hold small exact values (scores, the 0.3
threshold) are modelled as rationals.
-/

import Mathlib

namespace CommCoach

/-- The apostrophe character (several source regex literals contain it). -/
def apos : Char := Char.ofNat 39

/-- Python `\w` for ASCII text: letters, digits and underscore. -/
def wordChar (c : Char) : Bool := c.isAlpha || c.isDigit || c == '_'

/-- Lowercase a text, modelling Python `str.lower` on ASCII text. -/
def lowerText (l : List Char) : List Char := l.map Char.toLower

/-- Non-overlapping substring count, modelling Python `str.count`:
scan left to right; on a match at position `i`, resume at `i + needle.length`.
The `skip` argument carries the number of positions still to be skipped after
a match, which keeps the recursion structural (hence kernel-reducible). -/
def pyCountAux (needle : List Char) : List Char → Nat → Nat
  | [], _ => 0
  | _ :: rest, skip + 1 => pyCountAux needle rest skip
  | c :: rest, 0 =>
    if needle.isPrefixOf (c :: rest) then
      1 + pyCountAux needle rest (needle.length - 1)
    else
      pyCountAux needle rest 0

/-- Python `hay.count(needle)` for a non-empty needle. -/
def pyCount (needle hay : List Char) : Nat := pyCountAux needle hay 0

/-- The fixed filler/hedge vocabulary of `count_filler_words`
(analyze_comm.py, lines 28-30), in source order.  Note that the last five
entries include the mixed-case `I think` and `I guess`. -/
def fillers : List (List Char) :=
  ["um".data, "uh".data, "like".data, "you know".data, "actually".data,
   "basically".data, "literally".data, "just".data, "really".data,
   "very".data, "kind of".data, "sort of".data, "maybe".data,
   "probably".data, "I think".data, "I guess".data, "perhaps".data,
   "possibly".data]

/-- `count_filler_words` (analyze_comm.py, lines 26-36): lowercase the text,
then sum `text_lower.count(filler)` over the vocabulary.  The needles are the
verbatim vocabulary entries; they are not lowercased by the source. -/
def count_filler_words (text : List Char) : Nat :=
  (fillers.map (fun f => pyCount f (lowerText text))).sum

/-- The claim's reading of `filler_count` (spec 4.1): the sum over the same
vocabulary of case-insensitive occurrence counts, i.e. both the text and the
vocabulary entry are lowercased before counting.  Second definition kept for
comparison with `count_filler_words`. -/
def count_filler_words_ci (text : List Char) : Nat :=
  (fillers.map (fun f => pyCount (lowerText f) (lowerText text))).sum

/-! ### A scanner for the source's fixed regular expressions

Every pattern in analyze_comm.py is one of: a run-split `[.!?]+`, a bare
`\?`, a word-bounded ordered alternation of literals `\b(w1|w2|...)\b`
(after expanding two-level groups such as `\bI (will|...)\b` into literal
alternatives in the same order), the passive pattern
`\b(is|are|was|were|be|been|being) \w+ed\b`, or the numeric pattern
`\b(\d+%|\d+ percent)\b`.  All are matched with `re.IGNORECASE` and
consumed with `re.findall` (count of non-overlapping, leftmost matches) or
`re.search` (existence).  The scanner below reproduces exactly these
semantics: it walks the text once, carrying the previous character (for
`\b`) and a skip counter (to resume after the end of the last match, which
keeps the recursion structural). -/

/-- Is an optional character a `\w` character?  (`none` stands for a text
edge, which counts as a non-word position.) -/
def isWordOpt : Option Char → Bool
  | none => false
  | some c => wordChar c

/-- A `\b` word boundary sits between two positions exactly when one side is
a word character and the other is not (or is a text edge). -/
def atBoundary (a b : Option Char) : Bool := isWordOpt a != isWordOpt b

/-- Does `needle` match a prefix of `hay` case-insensitively (IGNORECASE on
ASCII, i.e. comparing lowercased characters)? -/
def ciMatch : List Char → List Char → Bool
  | [], _ => true
  | _ :: _, [] => false
  | a :: as, b :: bs => (a.toLower == b.toLower) && ciMatch as bs

/-- Generic `re.findall` counter.  `m prev suffix` decides whether the
pattern matches at the current position (`prev` is the character just
before it, for `\b`) and if so returns the match length.  On a match of
length `L ≥ 1` the scan resumes at the first position after the match; a
`skip` counter threads that through a structural recursion.  Zero-length
matches are treated as failures (no source pattern can match the empty
string). -/
def reCountAux (m : Option Char → List Char → Option Nat) :
    Option Char → List Char → Nat → Nat
  | _, [], _ => 0
  | _, c :: rest, skip + 1 => reCountAux m (some c) rest skip
  | prev, c :: rest, 0 =>
    match m prev (c :: rest) with
    | some (L + 1) => 1 + reCountAux m (some c) rest L
    | _ => reCountAux m (some c) rest 0

/-- `len(re.findall(pattern, text, re.IGNORECASE))` for a pattern with
position matcher `m`. -/
def reCount (m : Option Char → List Char → Option Nat) (text : List Char) : Nat :=
  reCountAux m none text 0

/-- `re.search(pattern, text, re.IGNORECASE)` succeeds iff some position
matches, iff the findall count is positive. -/
def reFound (m : Option Char → List Char → Option Nat) (text : List Char) : Prop :=
  0 < reCount m text

instance (m : Option Char → List Char → Option Nat) (text : List Char) :
    Decidable (reFound m text) := by unfold reFound; infer_instance

/-- Position matcher for `\b(a1|a2|...)\b` with literal alternatives `alts`
tried in order (Python alternation is ordered; an alternative whose
trailing `\b` fails is abandoned and the next one is tried). -/
def altWB (alts : List (List Char)) : Option Char → List Char → Option Nat :=
  fun prev hay =>
    if atBoundary prev hay.head? then
      alts.findSome? (fun a =>
        if ciMatch a hay &&
            atBoundary ((hay.take a.length).getLast?) ((hay.drop a.length).head?) then
          some a.length
        else none)
    else none

/-- The verb alternatives of the passive-voice pattern, in source order. -/
def passiveVerbs : List (List Char) :=
  ["is".data, "are".data, "was".data, "were".data, "be".data, "been".data,
   "being".data]

/-- Position matcher for `\b(is|are|was|were|be|been|being) \w+ed\b`
(analyze_comm.py, line 68).  After the verb and the space, the greedy
`\w+ed\b` matches exactly when the maximal `\w` run that follows has length
at least 3 and ends in `ed` (any shorter backtracked match would put a word
character after the final `d`, failing the trailing `\b`). -/
def passiveAt : Option Char → List Char → Option Nat :=
  fun prev hay =>
    if atBoundary prev hay.head? then
      passiveVerbs.findSome? (fun v =>
        if ciMatch (v ++ [' ']) hay then
          let run := (hay.drop (v.length + 1)).takeWhile wordChar
          if 3 ≤ run.length && ciMatch "ed".data (run.drop (run.length - 2)) then
            some (v.length + 1 + run.length)
          else none
        else none)
    else none

/-- Position matcher for `\b(\d+%|\d+ percent)\b` (analyze_comm.py, line 88).
The first alternative needs the `%` to be followed by a word character for
its trailing `\b` (so `50% done` does not match); greedy `\d+` always
consumes the whole digit run since neither continuation accepts a digit. -/
def numPctAt : Option Char → List Char → Option Nat :=
  fun prev hay =>
    if atBoundary prev hay.head? then
      let ds := hay.takeWhile Char.isDigit
      if ds.length = 0 then none
      else
        let after := hay.drop ds.length
        if (after.head? == some '%') && atBoundary (some '%') ((after.drop 1).head?) then
          some (ds.length + 1)
        else if ciMatch (' ' :: "percent".data) after &&
            atBoundary ((after.take 8).getLast?) ((after.drop 8).head?) then
          some (ds.length + 8)
        else none
    else none

/-- `len(re.findall(r'\?', text))`: each question mark is one match. -/
def countQuestionMarks (text : List Char) : Nat :=
  (text.filter (fun c => c == '?')).length

/-! ### Sentences and words -/

/-- Is this character one of the sentence terminators `.`, `!`, `?`? -/
def isSentSep (c : Char) : Bool := c == '.' || c == '!' || c == '?'

/-- `re.split(r'[.!?]+', text)`: split at maximal runs of sentence
terminators, keeping empty fragments at the edges (Python returns `['']`
for the empty text, and a trailing `''` when the text ends in a
terminator). -/
def reSplitSent : List Char → List (List Char)
  | [] => [[]]
  | c :: rest =>
    if isSentSep c then
      match rest with
      | [] => [[], []]
      | d :: _ =>
        if isSentSep d then reSplitSent rest
        else [] :: reSplitSent rest
    else
      match reSplitSent rest with
      | [] => [[c]]
      | h :: t => (c :: h) :: t

/-- Python whitespace, as used by `str.strip()` and `str.split()`. -/
def isPySpace (c : Char) : Bool :=
  c == ' ' || c == '\t' || c == '\n' || c == '\x0d' || c == '\x0b' || c == '\x0c'

/-- `str.strip()`: drop whitespace from both ends. -/
def pyStrip (l : List Char) : List Char :=
  ((l.dropWhile isPySpace).reverse.dropWhile isPySpace).reverse

/-- `str.split()` with no argument: the non-empty fragments between
whitespace runs. -/
def pyWords (l : List Char) : List (List Char) :=
  (List.splitOnP isPySpace l).filter (fun w => w ≠ [])

/-- `count_words` (analyze_comm.py, lines 13-15): `len(text.split())`. -/
def count_words (text : List Char) : Nat := (pyWords text).length

/-- The stripped, non-empty sentences of `average_sentence_length`
(analyze_comm.py, lines 19-20). -/
def sentencesOf (text : List Char) : List (List Char) :=
  ((reSplitSent text).map pyStrip).filter (fun s => s ≠ [])

/-- `average_sentence_length` (analyze_comm.py, lines 17-24): mean word
count over the stripped non-empty sentences, 0 if there are none.  The
float division is modelled as exact rational division. -/
def average_sentence_length (text : List Char) : ℚ :=
  if sentencesOf text = [] then 0
  else ((sentencesOf text).map (fun s => ((pyWords s).length : ℚ))).sum
    / ((sentencesOf text).length : ℚ)

/-! ### Feature detectors (analyze_comm.py, lines 38-110) -/

/-- `detect_weak_language` (lines 38-50): the sum of findall counts of the
ten weak patterns, in source order (`\?` plus nine word-bounded literals). -/
def detect_weak_language (text : List Char) : Nat :=
  countQuestionMarks text
    + reCount (altWB ["hope".data]) text
    + reCount (altWB ["try".data]) text
    + reCount (altWB ["might".data]) text
    + reCount (altWB ["maybe".data]) text
    + reCount (altWB ["sorry".data]) text
    + reCount (altWB ["just".data]) text
    + reCount (altWB ["kind of".data]) text
    + reCount (altWB ["I think".data]) text
    + reCount (altWB ["probably".data]) text

/-- Alternatives of `\bI (will|have decided|decided|am|built|launched)\b`,
expanded to whole literals in the order the regex tries them. -/
def strongAlts1 : List (List Char) :=
  ["I will".data, "I have decided".data, "I decided".data, "I am".data,
   "I built".data, "I launched".data]

/-- Alternatives of `\b(First|Second|Third|Therefore|In summary|Specifically)\b`. -/
def strongAlts2 : List (List Char) :=
  ["First".data, "Second".data, "Third".data, "Therefore".data,
   "In summary".data, "Specifically".data]

/-- Alternatives of `\b(must|need to|require)\b`. -/
def strongAlts3 : List (List Char) :=
  ["must".data, "need to".data, "require".data]

/-- `detect_strong_markers` (lines 52-63): sum of the three patterns'
findall counts. -/
def detect_strong_markers (text : List Char) : Nat :=
  reCount (altWB strongAlts1) text + reCount (altWB strongAlts2) text
    + reCount (altWB strongAlts3) text

/-- `detect_passive_voice` (lines 65-69). -/
def detect_passive_voice (text : List Char) : Nat := reCount passiveAt text

/-- Alternatives of `\b(I've|I have) (built|launched|led|managed|delivered)\b`,
expanded row-major in the order regex backtracking tries them. -/
def ethosAlts1 : List (List Char) :=
  let heads := ["I".data ++ [apos] ++ "ve".data, "I have".data]
  let tails := ["built".data, "launched".data, "led".data, "managed".data,
    "delivered".data]
  heads.flatMap (fun h => tails.map (fun t => h ++ [' '] ++ t))

/-- Alternatives of `\b(experience|track record|expertise)\b`. -/
def ethosAlts2 : List (List Char) :=
  ["experience".data, "track record".data, "expertise".data]

/-- Alternatives of `\b(research|study|data) shows\b`, expanded. -/
def ethosAlts3 : List (List Char) :=
  ["research shows".data, "study shows".data, "data shows".data]

/-- Alternatives of `\b(imagine|picture|consider)\b`. -/
def pathosAlts1 : List (List Char) :=
  ["imagine".data, "picture".data, "consider".data]

/-- Alternatives of `\b(risk|opportunity|critical|urgent)\b`. -/
def pathosAlts2 : List (List Char) :=
  ["risk".data, "opportunity".data, "critical".data, "urgent".data]

/-- Alternatives of `\bif we (don't|fail to)\b`, expanded. -/
def pathosAlts3 : List (List Char) :=
  ["if we don".data ++ [apos] ++ "t".data, "if we fail to".data]

/-- Alternatives of `\b(story|example|case)\b`. -/
def pathosAlts4 : List (List Char) :=
  ["story".data, "example".data, "case".data]

/-- Alternatives of `\b(because|therefore|thus|since)\b`. -/
def logosAlts1 : List (List Char) :=
  ["because".data, "therefore".data, "thus".data, "since".data]

/-- Alternatives of `\b(data|evidence|proof|shows|demonstrates)\b`. -/
def logosAlts3 : List (List Char) :=
  ["data".data, "evidence".data, "proof".data, "shows".data,
   "demonstrates".data]

/-- Alternatives of `\b(First|Second|Third)\b`. -/
def logosAlts4 : List (List Char) :=
  ["First".data, "Second".data, "Third".data]

/-- `detect_rhetoric_elements` (lines 71-97): the `(ethos, pathos, logos)`
triple, each a sum of its patterns' findall counts. -/
def detect_rhetoric_elements (text : List Char) : Nat × Nat × Nat :=
  (reCount (altWB ethosAlts1) text + reCount (altWB ethosAlts2) text
      + reCount (altWB ethosAlts3) text,
   reCount (altWB pathosAlts1) text + reCount (altWB pathosAlts2) text
      + reCount (altWB pathosAlts3) text + reCount (altWB pathosAlts4) text,
   reCount (altWB logosAlts1) text + reCount numPctAt text
      + reCount (altWB logosAlts3) text + reCount (altWB logosAlts4) text)

/-- Alternatives of `\b(No|I'm not available|I can't|I won't)\b`. -/
def directNoAlts : List (List Char) :=
  ["No".data,
   "I".data ++ [apos] ++ "m not available".data,
   "I can".data ++ [apos] ++ "t".data,
   "I won".data ++ [apos] ++ "t".data]

/-- Alternatives of `\b(sorry|apologize|apologies)\b`. -/
def apologyAlts : List (List Char) :=
  ["sorry".data, "apologize".data, "apologies".data]

/-- Alternatives of `\b(because|since|as|due to)\b`. -/
def justificationAlts : List (List Char) :=
  ["because".data, "since".data, "as".data, "due to".data]

/-- `detect_boundary_setting` (lines 99-110): the
`(direct_no, apologies, justifications)` triple. -/
def detect_boundary_setting (text : List Char) : Nat × Nat × Nat :=
  (reCount (altWB directNoAlts) text,
   reCount (altWB apologyAlts) text,
   reCount (altWB justificationAlts) text)

/-! ### The five dimension scorers (analyze_comm.py, lines 112-196) -/

/-- The final clamp `max(0, min(10, score))` shared by all five scorers. -/
def clamp010 (s : Int) : Int := max 0 (min 10 s)

/-- Alternatives of the structure-marker search in `score_clarity`
(line 129): `\b(First|Second|Therefore|In summary|Specifically)\b`
(no `Third`, unlike `strongAlts2`). -/
def clarityStructAlts : List (List Char) :=
  ["First".data, "Second".data, "Therefore".data, "In summary".data,
   "Specifically".data]

/-- `score_clarity` (lines 112-137).  Start at 10; subtract 2 (else 1) for
a long average sentence; subtract 2 when `total_sentences > 0` and
`passive_count / total_sentences > 0.3`, where `total_sentences` is
`len(re.split(r'[.!?]+', text))` — the raw fragment count, empty fragments
included; subtract 1 when no structure marker is found; subtract 1 per raw
fragment with more than 30 words; clamp at the end.  Float division is
modelled as exact rational division. -/
def score_clarity (text : List Char) : Int :=
  clamp010
    ((10 : Int)
      - (if 25 < average_sentence_length text then 2
         else if 20 < average_sentence_length text then 1 else 0)
      - (if 0 < (reSplitSent text).length ∧
            (3 : ℚ) / 10 <
              (detect_passive_voice text : ℚ) / ((reSplitSent text).length : ℚ)
          then 2 else 0)
      - (if reFound (altWB clarityStructAlts) text then 0 else 1)
      - (((reSplitSent text).filter (fun s => 30 < (pyWords s).length)).length : Int))

/-- Claim C5's reading of `score_clarity`: identical except that the
passive-voice ratio divides by the number of trimmed, non-empty sentences
(the spec 4.1 sentence definition) instead of the raw fragment count.
Second definition kept for comparison with `score_clarity`. -/
def score_clarity_specCount (text : List Char) : Int :=
  clamp010
    ((10 : Int)
      - (if 25 < average_sentence_length text then 2
         else if 20 < average_sentence_length text then 1 else 0)
      - (if 0 < (sentencesOf text).length ∧
            (3 : ℚ) / 10 <
              (detect_passive_voice text : ℚ) / ((sentencesOf text).length : ℚ)
          then 2 else 0)
      - (if reFound (altWB clarityStructAlts) text then 0 else 1)
      - (((reSplitSent text).filter (fun s => 30 < (pyWords s).length)).length : Int))

/-- `score_clarity` with the `total_sentences > 0` guard dropped; since the
raw fragment count is never zero the guard is vacuous, and this variant is
provably equal to `score_clarity`. -/
def score_clarity_noGuard (text : List Char) : Int :=
  clamp010
    ((10 : Int)
      - (if 25 < average_sentence_length text then 2
         else if 20 < average_sentence_length text then 1 else 0)
      - (if (3 : ℚ) / 10 <
            (detect_passive_voice text : ℚ) / ((reSplitSent text).length : ℚ)
          then 2 else 0)
      - (if reFound (altWB clarityStructAlts) text then 0 else 1)
      - (((reSplitSent text).filter (fun s => 30 < (pyWords s).length)).length : Int))

/-- `score_vocal_control` seen as a function of the filler count
(lines 139-146): `10 - min(filler_count, 10)`, clamped. -/
def vocal_control_of (fillerCount : Nat) : Int :=
  clamp010 (10 - min (fillerCount : Int) 10)

/-- `score_vocal_control` (lines 139-146). -/
def score_vocal_control (text : List Char) : Int :=
  vocal_control_of (count_filler_words text)

/-- `score_presence` (lines 148-158): `10 - min(weak_count * 2, 8) +
min(strong_count, 3)`, clamped. -/
def score_presence (text : List Char) : Int :=
  clamp010
    ((10 : Int) - min ((detect_weak_language text : Int) * 2) 8
      + min ((detect_strong_markers text : Int)) 3)

/-- Alternatives of the call-to-action search in `score_persuasion`
(line 170): `\b(Please|I need|Approve|Let's|We should)\b`. -/
def ctaAlts : List (List Char) :=
  ["Please".data, "I need".data, "Approve".data,
   "Let".data ++ [apos] ++ "s".data, "We should".data]

/-- `score_persuasion` (lines 160-173): `min(ethos,3) + min(pathos,3) +
min(logos,3)`, plus 1 for a call-to-action marker, clamped. -/
def score_persuasion (text : List Char) : Int :=
  clamp010
    (min ((detect_rhetoric_elements text).1 : Int) 3
      + min ((detect_rhetoric_elements text).2.1 : Int) 3
      + min ((detect_rhetoric_elements text).2.2 : Int) 3
      + (if reFound (altWB ctaAlts) text then 1 else 0))

/-- The running total of `score_boundary_setting` just before the
alternative-offering bonus (lines 179-190): `+5` for a direct no, `-5` for
an apology, `-2` for over-justification. -/
def boundary_pre (text : List Char) : Int :=
  (if 0 < (detect_boundary_setting text).1 then 5 else 0)
    - (if 0 < (detect_boundary_setting text).2.1 then 5 else 0)
    - (if 0 < count_words text ∧ 2 < (detect_boundary_setting text).2.2
       then 2 else 0)

/-- Alternatives of the alternative-offering search (line 193):
`\b(instead|alternatively|I can|available)\b`. -/
def alternativeAlts : List (List Char) :=
  ["instead".data, "alternatively".data, "I can".data, "available".data]

/-- `score_boundary_setting` (lines 175-196): the pre-bonus total, plus 2
for an alternative-offering marker, clamped. -/
def score_boundary_setting (text : List Char) : Int :=
  clamp010 (boundary_pre text + (if reFound (altWB alternativeAlts) text then 2 else 0))

/-- The text of the spec's boundary-setting example (spec 8). -/
def noText : List Char :=
  "No, I can".data ++ [apos] ++ "t make it. I have another commitment.".data

/-! ### Training state (manage_state.py)

The persisted JSON document is modelled as `TrainState`; `last_updated`
(a wall-clock timestamp) is not modelled.  Scores arrive as Python floats
and are modelled as rationals.  Persistence is modelled by value passing:
`update_dimension` returns the state that `save_state` would persist
(the unchanged input state on the unknown-dimension error path, which
returns before any mutation or save). -/

/-- Per-dimension record (`{"current": .., "baseline": .., "samples": ..}`). -/
structure DimState where
  current : ℚ
  baseline : Option ℚ
  samples : Nat
deriving DecidableEq

/-- The training-state document (manage_state.py, lines 29-41). -/
structure TrainState where
  level : Nat
  points : Int
  clarity : DimState
  vocal_control : DimState
  presence : DimState
  persuasion : DimState
  boundary_setting : DimState
deriving DecidableEq

/-- The result dictionary returned by a successful `update_dimension`
(manage_state.py, lines 102-110). -/
structure UpdateResult where
  dimension : String
  score : ℚ
  baseline : Option ℚ
  baseline_established : Bool
  samples : Nat
  points_earned : Int
  total_points : Int
deriving DecidableEq

deriving instance DecidableEq for Except

/-- The five dimension keys of the state document, in source order. -/
def dimNames : List String :=
  ["clarity", "vocal_control", "presence", "persuasion", "boundary_setting"]

/-- `state["dimensions"][d]`, or `none` when `d` is not a key. -/
def getDim (st : TrainState) (d : String) : Option DimState :=
  if d = "clarity" then some st.clarity
  else if d = "vocal_control" then some st.vocal_control
  else if d = "presence" then some st.presence
  else if d = "persuasion" then some st.persuasion
  else if d = "boundary_setting" then some st.boundary_setting
  else none

/-- Write `state["dimensions"][d]`; a non-key `d` writes nothing. -/
def setDim (st : TrainState) (d : String) (v : DimState) : TrainState :=
  if d = "clarity" then { st with clarity := v }
  else if d = "vocal_control" then { st with vocal_control := v }
  else if d = "presence" then { st with presence := v }
  else if d = "persuasion" then { st with persuasion := v }
  else if d = "boundary_setting" then { st with boundary_setting := v }
  else st

/-- The fresh document built by `load_state` when no file exists
(lines 27-41). -/
def initDim : DimState := { current := 0, baseline := none, samples := 0 }

/-- Initial training state: level 1, no points, all dimensions zeroed. -/
def initState : TrainState :=
  { level := 1, points := 0, clarity := initDim, vocal_control := initDim,
    presence := initDim, persuasion := initDim, boundary_setting := initDim }

/-- `baseline_threshold.get(modality, 10)` (lines 74-83). -/
def baseline_threshold (modality : String) : Nat :=
  if modality = "email-formal" then 10
  else if modality = "email-casual" then 10
  else if modality = "slack" then 15
  else if modality = "sms" then 15
  else if modality = "presentation" then 5
  else if modality = "conversation" then 10
  else 10

/-- Python `int()` on a float/rational: truncation toward zero. -/
def pyInt (q : ℚ) : Int := if 0 ≤ q then ⌊q⌋ else ⌈q⌉

/-- The `baseline_established` flag of one `update_dimension` call
(manage_state.py, lines 85-90): the pre-call baseline is still `None` and
the post-increment sample count has reached the modality threshold. -/
def updEst (dim0 : DimState) (modality : String) : Bool :=
  dim0.baseline.isNone && decide (baseline_threshold modality ≤ dim0.samples + 1)

/-- The per-dimension record after one `update_dimension` call
(lines 70-90): `current := score`, `samples` incremented, and `baseline`
set to the incoming score exactly on the establishing call. -/
def updDim (dim0 : DimState) (score : ℚ) (modality : String) : DimState :=
  if updEst dim0 modality then
    { current := score, baseline := some score, samples := dim0.samples + 1 }
  else
    { current := score, baseline := dim0.baseline, samples := dim0.samples + 1 }

/-- The points earned by one `update_dimension` call (lines 92-98): zero
without an (old or just-established) baseline or without strictly positive
improvement, `int(improvement * 2)` otherwise. -/
def updPoints (dim0 : DimState) (score : ℚ) (modality : String) : Int :=
  match (updDim dim0 score modality).baseline with
  | none => 0
  | some b => if 0 < score - b then pyInt ((score - b) * 2) else 0

/-- `update_dimension(dimension, score, modality)` (lines 52-110) acting on
an explicit state.  Returns the persisted state together with either the
error dictionary (as its message string) or the result dictionary; the
unknown-dimension path returns before any mutation. -/
def update_dimension (st : TrainState) (dimension : String) (score : ℚ)
    (modality : String) : TrainState × Except String UpdateResult :=
  match getDim st dimension with
  | none => (st, Except.error ("Unknown dimension: " ++ dimension))
  | some dim0 =>
    (setDim { st with points := st.points + updPoints dim0 score modality }
       dimension (updDim dim0 score modality),
     Except.ok
       { dimension := dimension, score := score,
         baseline := (updDim dim0 score modality).baseline,
         baseline_established := updEst dim0 modality,
         samples := dim0.samples + 1,
         points_earned := updPoints dim0 score modality,
         total_points := st.points + updPoints dim0 score modality })

/-- Run a list of `update_dimension` calls `(dimension, score, modality)`
in order, keeping the persisted state. -/
def runCalls (st : TrainState) (calls : List (String × ℚ × String)) : TrainState :=
  calls.foldl (fun s c => (update_dimension s c.1 c.2.1 c.2.2).1) st

/-- The state after the first `n` calls of a single-dimension,
single-modality session started from the fresh document: call `i` passes
score `ss[i]` for dimension `d` with modality `m`. -/
def stateAfter (d : String) (m : String) (ss : List ℚ) : TrainState :=
  ss.foldl (fun st s => (update_dimension st d s m).1) initState

/-- The outcome of call `k+1` (0-indexed `k`) of such a session: the update
applied to the state the first `k` calls produced. -/
def nthResult (d : String) (m : String) (ss : List ℚ) (k : Nat) :
    Except String UpdateResult :=
  (update_dimension (stateAfter d m (ss.take k)) d (ss.getD k 0) m).2

/-! ## Theorems for the analyzer claims -/

/-- Both clamp bounds, shared by the five range proofs. -/
lemma clamp010_nonneg_le (s : Int) : 0 ≤ clamp010 s ∧ clamp010 s ≤ 10 := by
  unfold clamp010
  exact ⟨le_max_left 0 _, max_le (by norm_num) (min_le_left _ _)⟩

/-- Claim C6: for every input text, each of the five dimension scoring
functions returns a value in the closed interval [0, 10] (the single final
clamp `max(0, min(10, score))` guarantees this whatever the additive and
subtractive terms produced). -/
theorem dimension_scores_in_range (text : List Char) :
    (0 ≤ score_clarity text ∧ score_clarity text ≤ 10) ∧
    (0 ≤ score_vocal_control text ∧ score_vocal_control text ≤ 10) ∧
    (0 ≤ score_presence text ∧ score_presence text ≤ 10) ∧
    (0 ≤ score_persuasion text ∧ score_persuasion text ≤ 10) ∧
    (0 ≤ score_boundary_setting text ∧ score_boundary_setting text ≤ 10) :=
  ⟨clamp010_nonneg_le _, clamp010_nonneg_le _, clamp010_nonneg_le _,
   clamp010_nonneg_le _, clamp010_nonneg_le _⟩

/-- Claim C7: `score_vocal_control` factors through the filler count, the
score as a function of that count is monotonically non-increasing, and it is
exactly 0 for every filler count of at least 10. -/
theorem vocal_control_monotone_and_floor :
    (∀ text, score_vocal_control text = vocal_control_of (count_filler_words text)) ∧
    (∀ a b : Nat, a ≤ b → vocal_control_of b ≤ vocal_control_of a) ∧
    (∀ f : Nat, 10 ≤ f → vocal_control_of f = 0) := by
  refine ⟨fun _ => rfl, fun a b hab => ?_, fun f hf => ?_⟩
  · have h : (a : Int) ≤ (b : Int) := Int.ofNat_le.mpr hab
    unfold vocal_control_of clamp010
    simp only [min_def, max_def]
    split_ifs <;> omega
  · have h : (10 : Int) ≤ (f : Int) := by exact_mod_cast hf
    unfold vocal_control_of clamp010
    simp only [min_def, max_def]
    split_ifs <;> omega

/-- Witness for C7 at concrete inputs: a step of monotonicity and the zero
floor at 11 fillers. -/
theorem vocal_control_monotone_and_floor_witness :
    vocal_control_of 3 ≤ vocal_control_of 2 ∧ vocal_control_of 11 = 0 :=
  ⟨vocal_control_monotone_and_floor.2.1 2 3 (by norm_num),
   vocal_control_monotone_and_floor.2.2 11 (by norm_num)⟩

/-- Claim C1: the source lowercases the text but then counts the verbatim,
mixed-case needles `I think` and `I guess`, which therefore can never match:
on the text `I think` the code yields a filler count of 0, while the claimed
case-insensitive count is 1. -/
theorem filler_count_misses_mixed_case_entries :
    count_filler_words "I think".data = 0 ∧
    count_filler_words_ci "I think".data = 1 ∧
    count_filler_words "I guess I was basically right".data = 1 ∧
    count_filler_words_ci "I guess I was basically right".data = 2 := by
  decide

/-- Counterexample for claim C8: inserting the word `sorry` between `I` and
`can't` (a position "anywhere" allows) drops the boundary-setting score from
7 to 0 — a drop of 7, not of exactly 5 — because the insertion also destroys
the `I can` alternative-offering bonus match. -/
theorem boundary_sorry_insertion_not_exact_five :
    noText =
      "No, I ".data
        ++ ("can".data ++ [apos] ++ "t make it. I have another commitment.".data) ∧
    score_boundary_setting noText = 7 ∧
    score_boundary_setting
      ("No, I ".data ++ "sorry ".data
        ++ ("can".data ++ [apos] ++ "t make it. I have another commitment.".data)) = 0 := by
  decide

/-- Claim C8 as amended: on the example text the direct-no detector fires and
the apology detector does not, the pre-bonus total is at least 5, and
inserting `sorry` at a position that leaves the `I can't` / `I can` matches
intact (here: appended at the end) lowers the returned score by exactly 5;
inserting it between `I` and `can't` lowers it by 7 instead, so the drop is
not exactly 5 for every insertion point. -/
theorem boundary_sorry_example_amended :
    0 < (detect_boundary_setting noText).1 ∧
    (detect_boundary_setting noText).2.1 = 0 ∧
    5 ≤ boundary_pre noText ∧
    score_boundary_setting noText = 7 ∧
    score_boundary_setting (noText ++ " sorry".data) = score_boundary_setting noText - 5 ∧
    score_boundary_setting
      ("No, I ".data ++ "sorry ".data
        ++ ("can".data ++ [apos] ++ "t make it. I have another commitment.".data))
      = score_boundary_setting noText - 7 := by
  decide

/-- The `[.!?]+` split never returns an empty fragment list (Python
`re.split` yields `['']` even for the empty text). -/
lemma reSplitSent_ne_nil (l : List Char) : reSplitSent l ≠ [] := by
  induction l with
  | nil => simp [reSplitSent]
  | cons c rest ih =>
    simp only [reSplitSent]
    split_ifs with h
    · cases rest with
      | nil => simp
      | cons d t =>
        show (if isSentSep d = true then reSplitSent (d :: t)
          else [] :: reSplitSent (d :: t)) ≠ []
        split_ifs with h2
        · exact ih
        · simp
    · cases hr : reSplitSent rest with
      | nil => exact absurd hr ih
      | cons x xs => simp

/-- Counterexample for claim C5: on `It was tested. Good. Fine.` the passive
ratio over trimmed non-empty sentences is 1/3 > 0.3, so the claim's reading
applies the 2-point penalty (score 7), but the code divides by the raw
fragment count 4 (the trailing empty fragment included), gets 1/4 ≤ 0.3, and
applies no penalty (score 9). -/
theorem clarity_passive_ratio_count_mismatch :
    score_clarity "It was tested. Good. Fine.".data = 9 ∧
    score_clarity_specCount "It was tested. Good. Fine.".data = 7 := by
  have h1 : sentencesOf "It was tested. Good. Fine.".data =
      ["It was tested".data, "Good".data, "Fine".data] := by decide
  have havg : average_sentence_length "It was tested. Good. Fine.".data = 5 / 3 := by
    rw [average_sentence_length, h1]
    norm_num +decide [show (pyWords "It was tested".data).length = 3 from by decide,
      show (pyWords "Good".data).length = 1 from by decide,
      show (pyWords "Fine".data).length = 1 from by decide]
  have hpass : detect_passive_voice "It was tested. Good. Fine.".data = 1 := by decide
  have hraw : (reSplitSent "It was tested. Good. Fine.".data).length = 4 := by decide
  have hcnt : (sentencesOf "It was tested. Good. Fine.".data).length = 3 := by
    rw [h1]; rfl
  have hns : ¬ reFound (altWB clarityStructAlts) "It was tested. Good. Fine.".data := by
    decide
  have hlong : ((reSplitSent "It was tested. Good. Fine.".data).filter
      (fun s => 30 < (pyWords s).length)).length = 0 := by decide
  constructor
  · rw [score_clarity, havg, hpass, hraw, hlong, if_neg hns]
    norm_num [clamp010]
  · rw [score_clarity_specCount, havg, hpass, hcnt, hlong, if_neg hns]
    norm_num [clamp010]

/-- Claim C5 as amended: the 2-point passive penalty divides by the raw
`[.!?]+` fragment count (empty fragments included); that count is always
positive, so the `total_sentences > 0` guard is vacuous and the penalty
condition is equivalent to `10 * passive_count > 3 * fragment_count`. -/
theorem clarity_passive_ratio_uses_raw_fragments (text : List Char) :
    0 < (reSplitSent text).length ∧
    score_clarity text = score_clarity_noGuard text ∧
    ((3 : ℚ) / 10 < (detect_passive_voice text : ℚ) / ((reSplitSent text).length : ℚ) ↔
      3 * (reSplitSent text).length < 10 * detect_passive_voice text) := by
  have hlen : 0 < (reSplitSent text).length :=
    List.length_pos.mpr (reSplitSent_ne_nil text)
  refine ⟨hlen, ?_, ?_⟩
  · rw [score_clarity, score_clarity_noGuard, if_congr (and_iff_right hlen) rfl rfl]
  · rw [div_lt_div_iff₀ (by norm_num) (by exact_mod_cast hlen)]
    rw [mul_comm ((detect_passive_voice text : ℚ)) 10]
    exact_mod_cast Iff.rfl

/-! ## Theorems for the state-machine claims -/

/-- An unknown key reads as `none` for any state. -/
lemma getDim_eq_none (st : TrainState) {d : String} (h : d ∉ dimNames) :
    getDim st d = none := by
  have h1 : ¬(d = "clarity") := fun e => h (by rw [e]; decide)
  have h2 : ¬(d = "vocal_control") := fun e => h (by rw [e]; decide)
  have h3 : ¬(d = "presence") := fun e => h (by rw [e]; decide)
  have h4 : ¬(d = "persuasion") := fun e => h (by rw [e]; decide)
  have h5 : ¬(d = "boundary_setting") := fun e => h (by rw [e]; decide)
  simp [getDim, h1, h2, h3, h4, h5]

/-- A key that reads as `some` is one of the five fixed names. -/
lemma mem_of_getDim {st : TrainState} {d : String} {x : DimState}
    (h : getDim st d = some x) : d ∈ dimNames := by
  by_contra hn
  rw [getDim_eq_none st hn] at h
  exact Option.noConfusion h

/-- Reading a dimension ignores the points field. -/
lemma getDim_points_irrel (st : TrainState) (p : Int) (d : String) :
    getDim { st with points := p } d = getDim st d := rfl

/-- Writing a dimension leaves the points field alone. -/
lemma setDim_points (st : TrainState) (d : String) (v : DimState) :
    (setDim st d v).points = st.points := by
  unfold setDim
  split_ifs <;> rfl

/-- Writing a valid dimension key and reading it back gives the new value. -/
lemma getDim_setDim_self (st : TrainState) (v : DimState) {d : String}
    (h : d ∈ dimNames) : getDim (setDim st d v) d = some v := by
  simp only [dimNames, List.mem_cons, List.not_mem_nil, or_false] at h
  rcases h with rfl | rfl | rfl | rfl | rfl <;> simp +decide [getDim, setDim]

/-- Writing one key does not change what another key reads. -/
lemma getDim_setDim_ne (st : TrainState) (v : DimState) {e d : String}
    (hne : e ≠ d) : getDim (setDim st e v) d = getDim st d := by
  have key : ∀ n : String, e = n → ¬(d = n) := fun n he hd => hne (by rw [he, hd])
  unfold setDim
  by_cases h1 : e = "clarity"
  · rw [if_pos h1]
    unfold getDim
    rw [if_neg (key _ h1), if_neg (key _ h1)]
  · rw [if_neg h1]
    by_cases h2 : e = "vocal_control"
    · rw [if_pos h2]
      unfold getDim
      rw [if_neg (key _ h2), if_neg (key _ h2)]
    · rw [if_neg h2]
      by_cases h3 : e = "presence"
      · rw [if_pos h3]
        unfold getDim
        rw [if_neg (key _ h3), if_neg (key _ h3)]
      · rw [if_neg h3]
        by_cases h4 : e = "persuasion"
        · rw [if_pos h4]
          unfold getDim
          rw [if_neg (key _ h4), if_neg (key _ h4)]
        · rw [if_neg h4]
          by_cases h5 : e = "boundary_setting"
          · rw [if_pos h5]
            unfold getDim
            rw [if_neg (key _ h5), if_neg (key _ h5)]
          · rw [if_neg h5]

/-- `update_dimension` on a known dimension, written out. -/
lemma update_dimension_eq {st : TrainState} {d : String} (dim0 : DimState)
    (h : getDim st d = some dim0) (s : ℚ) (m : String) :
    update_dimension st d s m =
      (setDim { st with points := st.points + updPoints dim0 s m } d
         (updDim dim0 s m),
       Except.ok
         { dimension := d, score := s, baseline := (updDim dim0 s m).baseline,
           baseline_established := updEst dim0 m, samples := dim0.samples + 1,
           points_earned := updPoints dim0 s m,
           total_points := st.points + updPoints dim0 s m }) := by
  unfold update_dimension
  rw [h]

/-- An update always increments the sample count by one. -/
lemma updDim_samples (dim0 : DimState) (s : ℚ) (m : String) :
    (updDim dim0 s m).samples = dim0.samples + 1 := by
  unfold updDim
  split_ifs <;> rfl

/-- The post-update baseline: the incoming score on the establishing call,
the old baseline otherwise. -/
lemma updDim_baseline (dim0 : DimState) (s : ℚ) (m : String) :
    (updDim dim0 s m).baseline =
      if updEst dim0 m then some s else dim0.baseline := by
  unfold updDim
  split_ifs <;> rfl

/-- The establishment flag in propositional form. -/
lemma updEst_eq_true_iff (dim0 : DimState) (m : String) :
    updEst dim0 m = true ↔
      dim0.baseline = none ∧ baseline_threshold m ≤ dim0.samples + 1 := by
  unfold updEst
  simp [Option.isNone_iff_eq_none]

/-- An already-set baseline survives any further update unchanged. -/
lemma updDim_baseline_some (dim0 : DimState) (s : ℚ) (m : String) (b : ℚ)
    (h : dim0.baseline = some b) : (updDim dim0 s m).baseline = some b := by
  have hest : updEst dim0 m = false := by
    unfold updEst
    rw [h]
    rfl
  rw [updDim_baseline, hest]
  simp [h]

/-- Without positive improvement a call earns nothing. -/
lemma updPoints_zero_of_neg (dim0 : DimState) (s : ℚ) (m : String) (b : ℚ)
    (hb : (updDim dim0 s m).baseline = some b) (hle : s - b ≤ 0) :
    updPoints dim0 s m = 0 := by
  unfold updPoints
  rw [hb]
  simp [not_lt.mpr hle]

/-- With positive improvement a call earns `int(improvement * 2)`, which is
the floor since the improvement is positive. -/
lemma updPoints_floor (dim0 : DimState) (s : ℚ) (m : String) (b : ℚ)
    (hb : (updDim dim0 s m).baseline = some b) (hpos : 0 < s - b) :
    updPoints dim0 s m = ⌊(s - b) * 2⌋ := by
  unfold updPoints
  rw [hb]
  show (if 0 < s - b then pyInt ((s - b) * 2) else 0) = ⌊(s - b) * 2⌋
  rw [if_pos hpos]
  unfold pyInt
  rw [if_pos (mul_nonneg hpos.le (by norm_num))]

/-- A call never earns negative points. -/
lemma updPoints_nonneg (dim0 : DimState) (s : ℚ) (m : String) :
    0 ≤ updPoints dim0 s m := by
  unfold updPoints
  cases hb : (updDim dim0 s m).baseline with
  | none => simp
  | some b =>
    dsimp only
    split_ifs with hpos
    · have h2 : (0 : ℚ) ≤ (s - b) * 2 := mul_nonneg hpos.le (by norm_num)
      unfold pyInt
      rw [if_pos h2]
      exact Int.floor_nonneg.mpr h2
    · exact le_refl 0

/-- The establishing call anchors the baseline at its own score, so its
improvement is zero and it earns nothing. -/
lemma updPoints_zero_of_est (dim0 : DimState) (s : ℚ) (m : String)
    (h : updEst dim0 m = true) : updPoints dim0 s m = 0 := by
  have hb : (updDim dim0 s m).baseline = some s := by
    rw [updDim_baseline, h]
    simp
  exact updPoints_zero_of_neg dim0 s m s hb (by simp)

/-- Every modality threshold is positive. -/
lemma baseline_threshold_pos (m : String) : 0 < baseline_threshold m := by
  unfold baseline_threshold
  split_ifs <;> norm_num

/-- Claim C9: an update call with a dimension outside the five fixed names
returns the structured error dictionary and leaves the persisted training
state completely unchanged. -/
theorem unknown_dimension_leaves_state_unchanged (st : TrainState) (d : String)
    (s : ℚ) (m : String) (h : d ∉ dimNames) :
    update_dimension st d s m = (st, Except.error ("Unknown dimension: " ++ d)) := by
  unfold update_dimension
  rw [getDim_eq_none st h]

/-- Witness for C9: updating the unknown dimension `focus` fails and keeps
the fresh state. -/
theorem unknown_dimension_leaves_state_unchanged_witness :
    update_dimension initState "focus" 5 "slack" =
      (initState, Except.error ("Unknown dimension: " ++ "focus")) :=
  unknown_dimension_leaves_state_unchanged initState "focus" 5 "slack" (by decide)

/-- Claim C10: any call that establishes a baseline earns exactly zero
points, whatever the score and modality, and leaves the running total
unchanged. -/
theorem establishing_call_earns_zero_points (st : TrainState) (d : String)
    (s : ℚ) (m : String) (st2 : TrainState) (r : UpdateResult)
    (h : update_dimension st d s m = (st2, Except.ok r))
    (hest : r.baseline_established = true) :
    r.points_earned = 0 ∧ st2.points = st.points := by
  cases hg : getDim st d with
  | none =>
    unfold update_dimension at h
    rw [hg] at h
    simp at h
  | some dim0 =>
    rw [update_dimension_eq dim0 hg] at h
    injection h with h1 h2
    injection h2 with h2
    subst h1
    subst h2
    refine ⟨updPoints_zero_of_est dim0 s m hest, ?_⟩
    rw [setDim_points]
    show st.points + updPoints dim0 s m = st.points
    rw [updPoints_zero_of_est dim0 s m hest, add_zero]

/-- Witness for C10: the fifth presentation-modality call on a fresh
dimension establishes the baseline and earns zero points. -/
theorem establishing_call_earns_zero_points_witness :
    ({ dimension := "clarity", score := 7, baseline := some 7,
       baseline_established := true, samples := 5, points_earned := 0,
       total_points := 0 } : UpdateResult).points_earned = 0 ∧
    (setDim { initState with points := 0 } "clarity"
      { current := 7, baseline := some 7, samples := 5 }).points =
      ({ initState with
          clarity := { current := 4, baseline := none, samples := 4 } }
        : TrainState).points :=
  establishing_call_earns_zero_points
    { initState with clarity := { current := 4, baseline := none, samples := 4 } }
    "clarity" 7 "presentation"
    (setDim { initState with points := 0 } "clarity"
      { current := 7, baseline := some 7, samples := 5 })
    { dimension := "clarity", score := 7, baseline := some 7,
      baseline_established := true, samples := 5, points_earned := 0,
      total_points := 0 }
    (by norm_num +decide [update_dimension, updEst, updDim, updPoints, getDim,
      setDim, initState, initDim, baseline_threshold, pyInt])
    rfl

/-- Claim C3: on a known dimension, `points_earned` is zero when the
post-call baseline is absent or the improvement is non-positive, equals
`floor((score - baseline) * 2)` when the improvement is positive, is never
negative, and the state's points grow by exactly `points_earned`. -/
theorem points_earned_rule (st : TrainState) (d : String) (s : ℚ) (m : String)
    (dim0 : DimState) (h : getDim st d = some dim0) :
    ∃ st2 r dim2, update_dimension st d s m = (st2, Except.ok r) ∧
      getDim st2 d = some dim2 ∧
      (dim2.baseline = none → r.points_earned = 0) ∧
      (∀ b, dim2.baseline = some b → s - b ≤ 0 → r.points_earned = 0) ∧
      (∀ b, dim2.baseline = some b → 0 < s - b → r.points_earned = ⌊(s - b) * 2⌋) ∧
      st2.points = st.points + r.points_earned ∧
      0 ≤ r.points_earned := by
  refine ⟨_, _, updDim dim0 s m, update_dimension_eq dim0 h s m,
    getDim_setDim_self _ _ (mem_of_getDim h), ?_, ?_, ?_, ?_,
    updPoints_nonneg dim0 s m⟩
  · intro hb
    show updPoints dim0 s m = 0
    unfold updPoints
    rw [hb]
  · intro b hb hle
    exact updPoints_zero_of_neg dim0 s m b hb hle
  · intro b hb hpos
    exact updPoints_floor dim0 s m b hb hpos
  · show (setDim { st with points := st.points + updPoints dim0 s m } d
      (updDim dim0 s m)).points = st.points + updPoints dim0 s m
    rw [setDim_points]

/-- Witness for C3 at the spec's example: baseline 4, new score 6.5. -/
theorem points_earned_rule_witness :
    ∃ st2 r dim2,
      update_dimension
        ({ initState with
            clarity := { current := 4, baseline := some 4, samples := 10 } }
          : TrainState)
        "clarity" (13 / 2) "email-formal" = (st2, Except.ok r) ∧
      getDim st2 "clarity" = some dim2 ∧
      (dim2.baseline = none → r.points_earned = 0) ∧
      (∀ b, dim2.baseline = some b → 13 / 2 - b ≤ 0 → r.points_earned = 0) ∧
      (∀ b, dim2.baseline = some b → 0 < 13 / 2 - b →
        r.points_earned = ⌊(13 / 2 - b) * 2⌋) ∧
      st2.points =
        ({ initState with
            clarity := { current := 4, baseline := some 4, samples := 10 } }
          : TrainState).points + r.points_earned ∧
      0 ≤ r.points_earned :=
  points_earned_rule _ "clarity" (13 / 2) "email-formal"
    { current := 4, baseline := some 4, samples := 10 } rfl

/-- Unfolding one call at the end of a single-dimension session. -/
lemma stateAfter_append (d : String) (m : String) (ss : List ℚ) (s : ℚ) :
    stateAfter d m (ss ++ [s]) = (update_dimension (stateAfter d m ss) d s m).1 := by
  unfold stateAfter
  rw [List.foldl_append]
  rfl

/-- Every valid dimension of the fresh document reads as the zeroed record. -/
lemma getDim_init {d : String} (h : d ∈ dimNames) :
    getDim initState d = some initDim := by
  simp only [dimNames, List.mem_cons, List.not_mem_nil, or_false] at h
  rcases h with rfl | rfl | rfl | rfl | rfl <;> rfl

/-- State invariant of a single-dimension, single-modality session from the
fresh document: after `n` calls the dimension holds `n` samples, and its
baseline is unset until the call numbered by the modality threshold `T`,
from which point it is frozen at the score of call `T`. -/
lemma stateAfter_getDim (d : String) (hd : d ∈ dimNames) (m : String)
    (ss : List ℚ) :
    ∃ dim, getDim (stateAfter d m ss) d = some dim ∧
      dim.samples = ss.length ∧
      dim.baseline =
        (if baseline_threshold m ≤ ss.length
         then ss[baseline_threshold m - 1]? else none) := by
  induction ss using List.reverseRecOn with
  | nil =>
    refine ⟨initDim, getDim_init hd, rfl, ?_⟩
    rw [if_neg]
    · rfl
    · have := baseline_threshold_pos m
      simp only [List.length_nil]
      omega
  | append_singleton ss s ih =>
    obtain ⟨dim, hg, hs, hb⟩ := ih
    rw [stateAfter_append, update_dimension_eq dim hg]
    refine ⟨updDim dim s m, getDim_setDim_self _ _ hd, ?_, ?_⟩
    · rw [updDim_samples, hs, List.length_append, List.length_singleton]
    · rw [updDim_baseline]
      have hTpos := baseline_threshold_pos m
      by_cases hc : baseline_threshold m ≤ ss.length
      · rw [if_pos hc] at hb
        have hlt : baseline_threshold m - 1 < ss.length := by omega
        rw [List.getElem?_eq_getElem hlt] at hb
        have hest : updEst dim m = false := by
          unfold updEst
          rw [hb]
          rfl
        rw [hest]
        simp only [Bool.false_eq_true, if_false]
        rw [hb, if_pos (by rw [List.length_append]; omega),
          List.getElem?_append_left hlt, List.getElem?_eq_getElem hlt]
      · rw [if_neg hc] at hb
        have hest_eq : updEst dim m = decide (baseline_threshold m ≤ ss.length + 1) := by
          unfold updEst
          rw [hb, hs]
          rfl
        by_cases hc2 : baseline_threshold m ≤ ss.length + 1
        · have hT : baseline_threshold m - 1 = ss.length := by omega
          rw [hest_eq, decide_eq_true hc2, if_pos rfl,
            if_pos (by rw [List.length_append, List.length_singleton]; omega), hT,
            List.getElem?_concat_length]
        · rw [hest_eq, decide_eq_false hc2]
          simp only [Bool.false_eq_true, if_false]
          rw [hb, if_neg (by rw [List.length_append, List.length_singleton]; omega)]

/-- Claim C2: in a fixed-modality session on a valid dimension starting from
the fresh document, call `k+1` reports `baseline_established = true` exactly
when `k+1` equals the modality threshold, and on that call the baseline is
set to the score passed in that very call (not an average of prior
samples). -/
theorem baseline_established_at_threshold (d : String) (hd : d ∈ dimNames)
    (m : String) (ss : List ℚ) (k : Nat) (hk : k < ss.length) :
    ∃ r, nthResult d m ss k = Except.ok r ∧
      (r.baseline_established = true ↔ k + 1 = baseline_threshold m) ∧
      (k + 1 = baseline_threshold m → r.baseline = some (ss.getD k 0)) := by
  obtain ⟨dim, hg, hs, hb⟩ := stateAfter_getDim d hd m (ss.take k)
  have hlen : (ss.take k).length = k := by
    rw [List.length_take]
    omega
  rw [hlen] at hs hb
  unfold nthResult
  rw [update_dimension_eq dim hg]
  have hTpos := baseline_threshold_pos m
  refine ⟨_, rfl, ?_, ?_⟩
  · show updEst dim m = true ↔ k + 1 = baseline_threshold m
    rw [updEst_eq_true_iff, hs, hb]
    by_cases hc : baseline_threshold m ≤ k
    · rw [if_pos hc]
      have hlt : baseline_threshold m - 1 < (ss.take k).length := by omega
      rw [List.getElem?_eq_getElem hlt]
      constructor
      · rintro ⟨he, -⟩
        exact absurd he (by simp)
      · intro he
        exact absurd he (by omega)
    · rw [if_neg hc]
      constructor
      · rintro ⟨-, hle⟩
        omega
      · intro he
        exact ⟨rfl, by omega⟩
  · intro he
    show (updDim dim (ss.getD k 0) m).baseline = some (ss.getD k 0)
    have hest : updEst dim m = true := by
      rw [updEst_eq_true_iff, hs, hb, if_neg (by omega)]
      exact ⟨rfl, by omega⟩
    rw [updDim_baseline, hest, if_pos rfl]

/-- Witness for C2: with modality `presentation` (threshold 5) the fifth
call establishes the baseline at that call's score. -/
theorem baseline_established_at_threshold_witness :
    ∃ r, nthResult "clarity" "presentation" [1, 2, 3, 4, 7] 4 = Except.ok r ∧
      (r.baseline_established = true ↔ 4 + 1 = baseline_threshold "presentation") ∧
      (4 + 1 = baseline_threshold "presentation" →
        r.baseline = some (([1, 2, 3, 4, 7] : List ℚ).getD 4 0)) :=
  baseline_established_at_threshold "clarity" (by decide) "presentation"
    [1, 2, 3, 4, 7] 4 (by decide)

/-- One arbitrary call, seen from a fixed valid dimension `d`: a successful
call on `d` itself adds one sample, any other call leaves the record
untouched, and in both cases an already-set baseline survives with the same
value. -/
lemma getDim_after_call (st : TrainState) (e : String) (s : ℚ) (m : String)
    (d : String) (dim0 : DimState) (h : getDim st d = some dim0) :
    ∃ dim1, getDim (update_dimension st e s m).1 d = some dim1 ∧
      dim1.samples = dim0.samples + (if e = d then 1 else 0) ∧
      (∀ b, dim0.baseline = some b → dim1.baseline = some b) := by
  by_cases he : e = d
  · subst he
    rw [update_dimension_eq dim0 h]
    exact ⟨updDim dim0 s m, getDim_setDim_self _ _ (mem_of_getDim h),
      by rw [updDim_samples, if_pos rfl],
      fun b hb => updDim_baseline_some dim0 s m b hb⟩
  · cases hge : getDim st e with
    | none =>
      unfold update_dimension
      rw [hge]
      exact ⟨dim0, h, by rw [if_neg he]; omega, fun b hb => hb⟩
    | some dimE =>
      rw [update_dimension_eq dimE hge]
      refine ⟨dim0, ?_, by rw [if_neg he]; omega, fun b hb => hb⟩
      rw [getDim_setDim_ne _ _ he, getDim_points_irrel]
      exact h

/-- Claim C4: over any sequence of update calls, a valid dimension's sample
count grows by exactly one per call addressed to it (so it never decreases),
and once its baseline is set it is never reset to `None` nor changed. -/
theorem samples_increase_baseline_stable (calls : List (String × ℚ × String)) :
    ∀ (st : TrainState) (d : String) (dim0 : DimState), getDim st d = some dim0 →
      ∃ dim1, getDim (runCalls st calls) d = some dim1 ∧
        dim1.samples = dim0.samples + (calls.filter (fun c => c.1 == d)).length ∧
        (∀ b, dim0.baseline = some b → dim1.baseline = some b) := by
  induction calls with
  | nil =>
    intro st d dim0 h
    exact ⟨dim0, h, by simp [runCalls], fun b hb => hb⟩
  | cons c cs ih =>
    intro st d dim0 h
    obtain ⟨dimm, h1, h2, h3⟩ := getDim_after_call st c.1 c.2.1 c.2.2 d dim0 h
    obtain ⟨dim1, g1, g2, g3⟩ := ih _ d dimm h1
    refine ⟨dim1, g1, ?_, fun b hb => g3 b (h3 b hb)⟩
    rw [g2, h2, List.filter_cons]
    by_cases hc : c.1 = d
    · simp only [hc, beq_self_eq_true, if_pos, List.length_cons, if_true]
      omega
    · simp only [beq_eq_false_iff_ne.mpr hc, Bool.false_eq_true, if_false,
        if_neg hc]
      omega

/-- Witness for C4: a three-call session touching `clarity` twice adds two
samples to it. -/
theorem samples_increase_baseline_stable_witness :
    ∃ dim1,
      getDim
        (runCalls initState
          [("clarity", 5, "presentation"), ("presence", 2, "sms"),
           ("clarity", 6, "slack")]) "clarity" = some dim1 ∧
      dim1.samples =
        initDim.samples +
          (([("clarity", 5, "presentation"), ("presence", 2, "sms"),
             ("clarity", 6, "slack")] : List (String × ℚ × String)).filter
            (fun c => c.1 == "clarity")).length ∧
      (∀ b, initDim.baseline = some b → dim1.baseline = some b) :=
  samples_increase_baseline_stable
    [("clarity", 5, "presentation"), ("presence", 2, "sms"),
     ("clarity", 6, "slack")] initState "clarity" initDim rfl

end CommCoach
